import Mathlib

/-!
# Grafana alert → Google Chat forwarder

A shallow embedding of `function.go` (package `function`): the `Alert` and
`GChatParam` data model, the presentation logic of
`NotifyGrafanaAlertToGChat` (colour, mention, detail text, widgets) and the
handler itself as a function from an environment and a request body to the
sequence of effects it performs.
-/

namespace function

/-! ## Dynamic values -/

/-- A finite `float64`: the number `(-1)^neg * mant * 2^exp` (`neg` also tells
`-0` from `0`). JSON decoding never yields NaN or an infinity, so every decoded
number has this form; an actual `float64` has `mant < 2^53` and
`-1074 ≤ exp ≤ 971`, bounds that nothing below relies on. -/
structure Float64 where
  neg : Bool
  mant : Nat
  exp : Int

/-- A Go `interface{}` value of one of the dynamic types that appear in this
program: what `encoding/json` stores in a `map[string]interface{}` (nil, bool,
float64, string, slice, map) and what the widget literals are built from.
A map is kept as its list of entries. -/
inductive GoVal where
  | nil : GoVal
  | bool (b : Bool) : GoVal
  | float64 (f : Float64) : GoVal
  | string (s : String) : GoVal
  | slice (xs : List GoVal) : GoVal
  | map (kvs : List (String × GoVal)) : GoVal

/-- The index expression `m[key]` on a `map[string]interface{}`: the stored
value, or the nil interface when the key is absent. -/
def index : List (String × GoVal) → String → GoVal
  | [], _ => GoVal.nil
  | (k, v) :: rest, key => if k = key then v else index rest key

/-! ## `fmt` and `strings` as used by the handler -/

/-- The integer nearest to `mant * 2^exp * 10^6`, ties to even. -/
def scaleMicro (mant : Nat) : Int → Nat
  | Int.ofNat k => mant * 2 ^ k * 1000000
  | Int.negSucc k =>
    let d := 2 ^ (k + 1)
    let n := mant * 1000000
    let q := n / d
    let r := n % d
    if 2 * r < d then q
    else if d < 2 * r then q + 1
    else if q % 2 = 0 then q else q + 1

/-- The decimal numeral of `n`, padded on the left with zeros to six digits. -/
def sixDigits (n : Nat) : String :=
  String.mk (List.replicate (6 - (Nat.repr n).length) '0') ++ Nat.repr n

/-- The verb `%f` applied to a `float64` (default precision 6): the sign when
negative, the integer part, a point and six decimals, the exact value rounded
to nearest, ties to even. -/
def fmtFloatF (f : Float64) : String :=
  let n := scaleMicro f.mant f.exp
  (if f.neg then "-" else "") ++ Nat.repr (n / 1000000) ++ "." ++ sixDigits (n % 1000000)

/-- The part of the `fmt` package this development does not spell out: how a
verb renders an operand whose dynamic type it does not accept directly (the
`%!verb(type=value)` forms, and the element-wise rendering of slices and
maps). -/
structure Fmt where
  other : Char → GoVal → String

/-- One operand under the verb `%f`. -/
def verbF (L : Fmt) : GoVal → String
  | GoVal.float64 f => fmtFloatF f
  | v => L.other 'f' v

/-- One operand under the verb `%s`. -/
def verbS (L : Fmt) : GoVal → String
  | GoVal.string s => s
  | v => L.other 's' v

/-- The call `strings.HasPrefix(s, p)`. Go compares bytes; on the valid UTF-8
strings that JSON decoding yields this is the comparison of characters. -/
def HasPrefix (s p : String) : Bool :=
  p.data.isPrefixOf s.data

/-! ## Data model -/

/-- The type `AlertLevel` with its three constants. -/
inductive AlertLevel where
  | Danger
  | Warn
  | Health
  deriving DecidableEq, Repr

/-- The package-level map `colors`. -/
def colors : AlertLevel → String
  | AlertLevel.Danger => "#fc2f2f"
  | AlertLevel.Warn => "#ffcc14"
  | AlertLevel.Health => "#27d871"

/-- The struct `Alert`. -/
structure Alert where
  DashboardID : Int
  EvalMatches : List (List (String × GoVal))
  ImageURL : String
  Message : String
  OrgID : Int
  PanelID : Int
  RuleID : Int
  RuleName : String
  RuleURL : String
  State : String
  Tags : List (String × String)
  Title : String

/-- The type `Widget`, a `map[string]interface{}`. -/
abbrev Widget := List (String × GoVal)

/-- The struct `Section`. -/
structure Section where
  Widgets : List Widget

/-- The struct `Card`. -/
structure Card where
  Sections : List Section

/-- The struct `GChatParam`. -/
structure GChatParam where
  Text : String
  Cards : List Card

/-! ## Presentation logic of `NotifyGrafanaAlertToGChat` (lines 115–194) -/

/-- The local `mention` after the two `if` statements. -/
def mention (alert : Alert) : String :=
  let mention := "<users/all>"
  let mention := if HasPrefix alert.RuleName "[DANGER]" then "<users/all>" else mention
  mention

/-- The local `color` after the two `if` statements. -/
def color (alert : Alert) : String :=
  let color := colors AlertLevel.Warn
  let color := if HasPrefix alert.RuleName "[DANGER]" then colors AlertLevel.Danger else color
  let color := if alert.State = "ok" then colors AlertLevel.Health else color
  color

/-- The body of the loop over `alert.EvalMatches`:
`fmt.Sprintf("metric: %f, value: %s\n", eval["value"], eval["metric"])`. -/
def detailLine (L : Fmt) (eval : List (String × GoVal)) : String :=
  "metric: " ++ verbF L (index eval "value") ++ ", value: "
    ++ verbS L (index eval "metric") ++ "\n"

/-- The local `textDetail` after the loop: each iteration assigns it anew. -/
def textDetail (L : Fmt) (alert : Alert) : String :=
  alert.EvalMatches.foldl (fun _ eval => detailLine L eval) ""

/-- The local `text`:
`fmt.Sprintf("<font color=\"%s\">%s</font>\n%s", color, alert.Title, textDetail)`. -/
def text (L : Fmt) (alert : Alert) : String :=
  "<font color=\"" ++ color alert ++ "\">" ++ alert.Title ++ "</font>\n" ++ textDetail L alert

/-- The local `headWidgets`. -/
def headWidgets (L : Fmt) (alert : Alert) : List Widget :=
  [ [("textParagraph", GoVal.map [("text", GoVal.string (text L alert))])],
    [("buttons", GoVal.slice [
      GoVal.map [("textButton", GoVal.map [
        ("text", GoVal.string "URL"),
        ("onClick", GoVal.map [
          ("openLink", GoVal.map [("url", GoVal.string alert.RuleURL)])])])]])],
    [("image", GoVal.map [("imageUrl", GoVal.string alert.ImageURL)])] ]

/-- The local `keyValueSecWidgets`. -/
def keyValueSecWidgets (alert : Alert) : List Widget :=
  [ [("keyValue", GoVal.map [
      ("topLabel", GoVal.string "State"),
      ("content", GoVal.string alert.State),
      ("contentMultiline", GoVal.bool true)])],
    [("keyValue", GoVal.map [
      ("topLabel", GoVal.string "Message"),
      ("content", GoVal.string alert.Message),
      ("contentMultiline", GoVal.bool true)])] ]

/-- The local `params`, the outbound document. -/
def params (L : Fmt) (alert : Alert) : GChatParam :=
  { Text := mention alert,
    Cards := [
      { Sections := [
          { Widgets := headWidgets L alert },
          { Widgets := keyValueSecWidgets alert } ] } ] }

/-! ## The handler and its environment -/

/-- A byte sequence (`[]byte`), one number below 256 per byte. -/
abbrev Bytes := List Nat

/-- The constant `http.StatusInternalServerError`. -/
def StatusInternalServerError : Nat := 500

/-- The constant `http.StatusOK`, the status of a response on which
`WriteHeader` was not called before the first `Write`. -/
def StatusOK : Nat := 200

/-- The constant `http.MethodPost`. -/
def MethodPost : String := "POST"

/-- The method `Header.Set`: the entry for `key` is replaced. -/
def headerSet (h : List (String × String)) (key value : String) : List (String × String) :=
  (key, value) :: h.filter (fun e => e.1 != key)

/-- The fields of an outbound `http.Request` that the handler determines. -/
structure Request where
  Method : String
  URL : String
  Header : List (String × String)
  Body : Bytes

/-- The fields of an `http.Response` as the handler can observe them: the
status code and what `ioutil.ReadAll(resp.Body)` returns. -/
structure Response where
  StatusCode : Nat
  Body : Except String Bytes

/-- Everything outside the handler: the package variable `webhookURL`, the
libraries it calls and the peers it talks to. Errors are kept as the text of
`err.Error()`. -/
structure Env where
  /-- The value of `os.Getenv("WEBHOOK_URL")` at start-up. -/
  webhookURL : String
  /-- The call `json.NewDecoder(r.Body).Decode(&alert)` on a request body. -/
  decode : Bytes → Except String Alert
  /-- The `fmt` renderings not spelled out here. -/
  fmt : Fmt
  /-- The call `json.Marshal(params)`. -/
  marshal : GChatParam → Except String Bytes
  /-- The error, if any, with which `http.NewRequest` rejects a method and URL. -/
  requestError : String → String → Option String
  /-- The call `http.DefaultClient.Do(req)`. -/
  send : Request → Except String Response
  /-- The error, if any, returned by `w.Write` for the given bytes. -/
  writeError : Bytes → Option String

/-- The call `http.NewRequest(method, url, bytes.NewBuffer(body))`. -/
def NewRequest (E : Env) (method url : String) (body : Bytes) : Except String Request :=
  match E.requestError method url with
  | some err => Except.error err
  | none => Except.ok { Method := method, URL := url, Header := [], Body := body }

/-- The operand of a `log.Printf` call. -/
inductive LogArg where
  | str (s : String)
  | bytes (b : Bytes)
  | alert (a : Alert)

/-- One effect of the handler, in program order. -/
inductive Event where
  /-- The call `log.Printf(format, arg)`. -/
  | log (format : String) (arg : LogArg)
  /-- The call `w.WriteHeader(code)`. -/
  | writeHeader (code : Nat)
  /-- The call `w.Header().Set(key, value)`. -/
  | setHeader (key value : String)
  /-- The call `w.Write(b)`. -/
  | write (b : Bytes)
  /-- The call `http.DefaultClient.Do(req)`. -/
  | send (req : Request)
  /-- The deferred `resp.Body.Close()`. -/
  | close

/-- The handler `NotifyGrafanaAlertToGChat(w, r)` on a request with the given
body: the effects it performs, in order. -/
def NotifyGrafanaAlertToGChat (E : Env) (body : Bytes) : List Event :=
  match E.decode body with
  | Except.error err =>
    [ Event.log "[error] decode alert error, %s." (LogArg.str err),
      Event.writeHeader StatusInternalServerError ]
  | Except.ok alert =>
    Event.log "[alert log] %#v" (LogArg.alert alert) ::
    match E.marshal (params E.fmt alert) with
    | Except.error err =>
      [ Event.log "[error] marshal error, %s." (LogArg.str err),
        Event.writeHeader StatusInternalServerError ]
    | Except.ok b =>
      match NewRequest E MethodPost E.webhookURL b with
      | Except.error err =>
        [ Event.log "[error] new request error, %s." (LogArg.str err),
          Event.writeHeader StatusInternalServerError ]
      | Except.ok req =>
        let req := { req with Header := headerSet req.Header "Content-Type" "application/json" }
        Event.send req ::
        match E.send req with
        | Except.error err =>
          [ Event.log "[error] post form error, %s." (LogArg.str err),
            Event.writeHeader StatusInternalServerError ]
        | Except.ok resp =>
          (match resp.Body with
            | Except.error err => [Event.log "%s" (LogArg.str err)]
            | Except.ok body => [Event.log "[gchat response] %s" (LogArg.bytes body)])
          ++ [ Event.setHeader "Content-Type" "application/json", Event.write b ]
          ++ (match E.writeError b with
            | some err =>
              [ Event.log "[error] write error, %s." (LogArg.str err),
                Event.writeHeader StatusInternalServerError ]
            | none => [])
          ++ [ Event.close ]

/-! ## What the caller and the webhook observe -/

/-- The status of the response: the code of the first `WriteHeader`, or 200
when a `Write` comes first or the handler returns without either. -/
def statusCode : List Event → Nat
  | [] => StatusOK
  | Event.writeHeader code :: _ => code
  | Event.write _ :: _ => StatusOK
  | _ :: es => statusCode es

/-- The response body: the bytes handed to `w.Write`, in order. -/
def responseBody : List Event → Bytes
  | [] => []
  | Event.write b :: es => b ++ responseBody es
  | _ :: es => responseBody es

/-- The response header: the entries set before the header is sent, that is
before the first `WriteHeader` or `Write`. -/
def responseHeader : List Event → List (String × String) → List (String × String)
  | [], h => h
  | Event.setHeader key value :: es, h => responseHeader es (headerSet h key value)
  | Event.writeHeader _ :: _, h => h
  | Event.write _ :: _, h => h
  | _ :: es, h => responseHeader es h

/-- The requests handed to `http.DefaultClient.Do`, in order. -/
def forwarded : List Event → List Request
  | [] => []
  | Event.send req :: es => req :: forwarded es
  | _ :: es => forwarded es

/-- The `log.Printf` calls, in order. -/
def logged : List Event → List (String × LogArg)
  | [] => []
  | Event.log format arg :: es => (format, arg) :: logged es
  | _ :: es => logged es

/-- The keys of a widget, in the order of its literal. -/
def keys (w : Widget) : List String :=
  w.map Prod.fst

/-! ## The stream decoder of `encoding/json`

The handler decodes with `json.NewDecoder(r.Body).Decode(&alert)`. The decoder
first delimits one JSON value with the package's scanner, a byte-driven state
machine, and then decodes the text of that value; what follows the value in
the body is not read. The scanner and the delimiting step are spelled out
here; the decoding of the delimited value into an `Alert` stays a parameter.
-/

/-- The entries of the scanner's `parseState` stack. -/
inductive ParseState where
  | parseObjectKey
  | parseObjectValue
  | parseArrayValue

/-- The scanner's step functions. -/
inductive Step where
  | stateBeginValueOrEmpty | stateBeginValue | stateBeginStringOrEmpty | stateBeginString
  | stateEndValue | stateEndTop
  | stateInString | stateInStringEsc
  | stateInStringEscU | stateInStringEscU1 | stateInStringEscU12 | stateInStringEscU123
  | stateNeg | state1 | state0 | stateDot | stateDot0 | stateE | stateESign | stateE0
  | stateT | stateTr | stateTru
  | stateF | stateFa | stateFal | stateFals
  | stateN | stateNu | stateNul
  | stateError

/-- The codes a step function returns. -/
inductive Code where
  | scanContinue | scanBeginLiteral | scanBeginObject | scanObjectKey | scanObjectValue
  | scanEndObject | scanBeginArray | scanArrayValue | scanEndArray | scanSkipSpace
  | scanEnd | scanError
  deriving DecidableEq

/-- The struct `scanner`: the current step function, the stack of open
composite values (innermost first), whether a top-level value has ended, and
the context of the syntax error met, if any. -/
structure Scanner where
  step : Step
  parseState : List ParseState
  endTop : Bool
  err : Option String

/-- The constant `maxNestingDepth`. -/
def maxNestingDepth : Nat := 10000

/-- The method `reset`. -/
def Scanner.reset : Scanner :=
  { step := Step.stateBeginValue, parseState := [], endTop := false, err := none }

/-- The function `isSpace`: space, tab, carriage return, line feed. -/
def isSpace (c : Nat) : Bool :=
  c = 32 || c = 9 || c = 13 || c = 10

/-- Whether `c` is an ASCII decimal digit. -/
def isDigit (c : Nat) : Bool :=
  48 ≤ c && c ≤ 57

/-- Whether `c` is an ASCII hexadecimal digit. -/
def isHex (c : Nat) : Bool :=
  isDigit c || (97 ≤ c && c ≤ 102) || (65 ≤ c && c ≤ 70)

/-- The method `error`: the scanner stops at `stateError`. -/
def Scanner.error (s : Scanner) (context : String) : Scanner × Code :=
  ({ s with step := Step.stateError, err := some context }, Code.scanError)

/-- The scanner moves to the step function `next` and returns `code`. -/
def Scanner.goto (s : Scanner) (next : Step) (code : Code) : Scanner × Code :=
  ({ s with step := next }, code)

/-- The method `pushParseState`. -/
def Scanner.pushParseState (s : Scanner) (newParseState : ParseState) (successState : Code) :
    Scanner × Code :=
  let s := { s with parseState := newParseState :: s.parseState }
  if s.parseState.length ≤ maxNestingDepth then (s, successState)
  else s.error "exceeded max depth"

/-- The method `popParseState`. -/
def Scanner.popParseState (s : Scanner) : Scanner :=
  match s.parseState.tail with
  | [] => { s with parseState := [], step := Step.stateEndTop, endTop := true }
  | rest => { s with parseState := rest, step := Step.stateEndValue }

/-- The step function `stateEndTop`: a byte other than a space after the
top-level value is recorded as an error, and `scanEnd` is returned all the same. -/
def stateEndTop (s : Scanner) (c : Nat) : Scanner × Code :=
  if !isSpace c then ((s.error "after top-level value").1, Code.scanEnd)
  else (s, Code.scanEnd)

/-- The step function `stateEndValue`. -/
def stateEndValue (s : Scanner) (c : Nat) : Scanner × Code :=
  match s.parseState with
  | [] => stateEndTop { s with step := Step.stateEndTop, endTop := true } c
  | ps :: rest =>
    if isSpace c then s.goto Step.stateEndValue Code.scanSkipSpace
    else
      match ps with
      | ParseState.parseObjectKey =>
        if c = 58 then
          ({ s with parseState := ParseState.parseObjectValue :: rest,
                    step := Step.stateBeginValue }, Code.scanObjectKey)
        else s.error "after object key"
      | ParseState.parseObjectValue =>
        if c = 44 then
          ({ s with parseState := ParseState.parseObjectKey :: rest,
                    step := Step.stateBeginString }, Code.scanObjectValue)
        else if c = 125 then (s.popParseState, Code.scanEndObject)
        else s.error "after object key:value pair"
      | ParseState.parseArrayValue =>
        if c = 44 then s.goto Step.stateBeginValue Code.scanArrayValue
        else if c = 93 then (s.popParseState, Code.scanEndArray)
        else s.error "after array element"

/-- The step function `stateBeginValue`. -/
def stateBeginValue (s : Scanner) (c : Nat) : Scanner × Code :=
  if isSpace c then (s, Code.scanSkipSpace)
  else if c = 123 then
    { s with step := Step.stateBeginStringOrEmpty }.pushParseState
      ParseState.parseObjectKey Code.scanBeginObject
  else if c = 91 then
    { s with step := Step.stateBeginValueOrEmpty }.pushParseState
      ParseState.parseArrayValue Code.scanBeginArray
  else if c = 34 then s.goto Step.stateInString Code.scanBeginLiteral
  else if c = 45 then s.goto Step.stateNeg Code.scanBeginLiteral
  else if c = 48 then s.goto Step.state0 Code.scanBeginLiteral
  else if c = 116 then s.goto Step.stateT Code.scanBeginLiteral
  else if c = 102 then s.goto Step.stateF Code.scanBeginLiteral
  else if c = 110 then s.goto Step.stateN Code.scanBeginLiteral
  else if 49 ≤ c ∧ c ≤ 57 then s.goto Step.state1 Code.scanBeginLiteral
  else s.error "looking for beginning of value"

/-- The step function `stateBeginValueOrEmpty`. -/
def stateBeginValueOrEmpty (s : Scanner) (c : Nat) : Scanner × Code :=
  if isSpace c then (s, Code.scanSkipSpace)
  else if c = 93 then stateEndValue s c
  else stateBeginValue s c

/-- The step function `stateBeginString`. -/
def stateBeginString (s : Scanner) (c : Nat) : Scanner × Code :=
  if isSpace c then (s, Code.scanSkipSpace)
  else if c = 34 then s.goto Step.stateInString Code.scanBeginLiteral
  else s.error "looking for beginning of object key string"

/-- The step function `stateBeginStringOrEmpty`. -/
def stateBeginStringOrEmpty (s : Scanner) (c : Nat) : Scanner × Code :=
  if isSpace c then (s, Code.scanSkipSpace)
  else if c = 125 then
    stateEndValue { s with parseState := ParseState.parseObjectValue :: s.parseState.tail } c
  else stateBeginString s c

/-- The step function `stateInString`. -/
def stateInString (s : Scanner) (c : Nat) : Scanner × Code :=
  if c = 34 then s.goto Step.stateEndValue Code.scanContinue
  else if c = 92 then s.goto Step.stateInStringEsc Code.scanContinue
  else if c < 32 then s.error "in string literal"
  else (s, Code.scanContinue)

/-- The step function `stateInStringEsc`. -/
def stateInStringEsc (s : Scanner) (c : Nat) : Scanner × Code :=
  if c = 98 || c = 102 || c = 110 || c = 114 || c = 116 || c = 92 || c = 47 || c = 34 then
    s.goto Step.stateInString Code.scanContinue
  else if c = 117 then s.goto Step.stateInStringEscU Code.scanContinue
  else s.error "in string escape code"

/-- The step functions `stateInStringEscU` to `stateInStringEscU123`: one
hexadecimal digit, then on to `next`. -/
def stateHex (next : Step) (s : Scanner) (c : Nat) : Scanner × Code :=
  if isHex c then s.goto next Code.scanContinue
  else s.error "in \\u hexadecimal character escape"

/-- The step function `state0`. -/
def state0 (s : Scanner) (c : Nat) : Scanner × Code :=
  if c = 46 then s.goto Step.stateDot Code.scanContinue
  else if c = 101 || c = 69 then s.goto Step.stateE Code.scanContinue
  else stateEndValue s c

/-- The step function `state1`. -/
def state1 (s : Scanner) (c : Nat) : Scanner × Code :=
  if isDigit c then s.goto Step.state1 Code.scanContinue
  else state0 s c

/-- The step function `stateNeg`. -/
def stateNeg (s : Scanner) (c : Nat) : Scanner × Code :=
  if c = 48 then s.goto Step.state0 Code.scanContinue
  else if 49 ≤ c ∧ c ≤ 57 then s.goto Step.state1 Code.scanContinue
  else s.error "in numeric literal"

/-- The step function `stateDot`. -/
def stateDot (s : Scanner) (c : Nat) : Scanner × Code :=
  if isDigit c then s.goto Step.stateDot0 Code.scanContinue
  else s.error "after decimal point in numeric literal"

/-- The step function `stateDot0`. -/
def stateDot0 (s : Scanner) (c : Nat) : Scanner × Code :=
  if isDigit c then (s, Code.scanContinue)
  else if c = 101 || c = 69 then s.goto Step.stateE Code.scanContinue
  else stateEndValue s c

/-- The step function `stateESign`. -/
def stateESign (s : Scanner) (c : Nat) : Scanner × Code :=
  if isDigit c then s.goto Step.stateE0 Code.scanContinue
  else s.error "in exponent of numeric literal"

/-- The step function `stateE`. -/
def stateE (s : Scanner) (c : Nat) : Scanner × Code :=
  if c = 43 || c = 45 then s.goto Step.stateESign Code.scanContinue
  else stateESign s c

/-- The step function `stateE0`. -/
def stateE0 (s : Scanner) (c : Nat) : Scanner × Code :=
  if isDigit c then (s, Code.scanContinue)
  else stateEndValue s c

/-- The step functions of the literals `true`, `false` and `null`: the letter
`want`, then on to `next`. -/
def stateLetter (want : Nat) (next : Step) (context : String) (s : Scanner) (c : Nat) :
    Scanner × Code :=
  if c = want then s.goto next Code.scanContinue
  else s.error context

/-- The call `s.step(s, c)`. -/
def Scanner.run (s : Scanner) (c : Nat) : Scanner × Code :=
  match s.step with
  | Step.stateBeginValueOrEmpty => stateBeginValueOrEmpty s c
  | Step.stateBeginValue => stateBeginValue s c
  | Step.stateBeginStringOrEmpty => stateBeginStringOrEmpty s c
  | Step.stateBeginString => stateBeginString s c
  | Step.stateEndValue => stateEndValue s c
  | Step.stateEndTop => stateEndTop s c
  | Step.stateInString => stateInString s c
  | Step.stateInStringEsc => stateInStringEsc s c
  | Step.stateInStringEscU => stateHex Step.stateInStringEscU1 s c
  | Step.stateInStringEscU1 => stateHex Step.stateInStringEscU12 s c
  | Step.stateInStringEscU12 => stateHex Step.stateInStringEscU123 s c
  | Step.stateInStringEscU123 => stateHex Step.stateInString s c
  | Step.stateNeg => stateNeg s c
  | Step.state1 => state1 s c
  | Step.state0 => state0 s c
  | Step.stateDot => stateDot s c
  | Step.stateDot0 => stateDot0 s c
  | Step.stateE => stateE s c
  | Step.stateESign => stateESign s c
  | Step.stateE0 => stateE0 s c
  | Step.stateT => stateLetter 114 Step.stateTr "in literal true (expecting 'r')" s c
  | Step.stateTr => stateLetter 117 Step.stateTru "in literal true (expecting 'u')" s c
  | Step.stateTru => stateLetter 101 Step.stateEndValue "in literal true (expecting 'e')" s c
  | Step.stateF => stateLetter 97 Step.stateFa "in literal false (expecting 'a')" s c
  | Step.stateFa => stateLetter 108 Step.stateFal "in literal false (expecting 'l')" s c
  | Step.stateFal => stateLetter 115 Step.stateFals "in literal false (expecting 's')" s c
  | Step.stateFals => stateLetter 101 Step.stateEndValue "in literal false (expecting 'e')" s c
  | Step.stateN => stateLetter 117 Step.stateNu "in literal null (expecting 'u')" s c
  | Step.stateNu => stateLetter 108 Step.stateNul "in literal null (expecting 'l')" s c
  | Step.stateNul => stateLetter 108 Step.stateEndValue "in literal null (expecting 'l')" s c
  | Step.stateError => (s, Code.scanError)

/-- The method `eof`, as a test: whether the input seen so far is one complete
value. -/
def Scanner.eof (s : Scanner) : Bool :=
  if s.err.isSome then false
  else if s.endTop then true
  else (s.run 32).1.endTop

/-- The loop of `checkValid`: every byte goes through the scanner. -/
def checkValid : Scanner → Bytes → Bool
  | s, [] => s.eof
  | s, c :: rest =>
    match s.run c with
    | (_, Code.scanError) => false
    | (s1, _) => checkValid s1 rest

/-- The function `json.Valid`: the bytes are one JSON value, with nothing but
spaces around it. A body for which it is false is malformed JSON. -/
def Valid (data : Bytes) : Bool :=
  checkValid Scanner.reset data

/-- The loop of `Decoder.readValue` over the bytes not yet scanned, `n` of
them scanned already: the length of the first value of the input, which ends
with the closing bracket of an object or array, or before the first byte that
cannot continue a number, string or literal. At the end of the input a space is
fed to the scanner; `nonSpace` tells whether the input has a byte that is not
a space. -/
def readValueLoop (nonSpace : Bool) : Scanner → Bytes → Nat → Except String Nat
  | s, [], n =>
    if (s.run 32).2 = Code.scanEnd then Except.ok n
    else if nonSpace then Except.error "unexpected EOF"
    else Except.error "EOF"
  | s, c :: rest, n =>
    match s.run c with
    | (_, Code.scanEnd) => Except.ok n
    | (s1, Code.scanEndObject) =>
      if (stateEndValue s1 32).2 = Code.scanEnd then Except.ok (n + 1)
      else readValueLoop nonSpace (stateEndValue s1 32).1 rest (n + 1)
    | (s1, Code.scanEndArray) =>
      if (stateEndValue s1 32).2 = Code.scanEnd then Except.ok (n + 1)
      else readValueLoop nonSpace (stateEndValue s1 32).1 rest (n + 1)
    | (s1, Code.scanError) => Except.error (s1.err.getD "")
    | (s1, _) => readValueLoop nonSpace s1 rest (n + 1)

/-- The method `Decoder.readValue` of a fresh decoder on a whole body. Of a
syntax error only the context is kept as error text. -/
def readValue (body : Bytes) : Except String Nat :=
  readValueLoop (body.any (fun c => !isSpace c)) Scanner.reset body 0

/-- The method `Decoder.Decode` of a fresh decoder on a whole body:
`readValue` delimits the first value and `unmarshal` decodes its text; the
bytes after the value are not looked at. -/
def Decode (unmarshal : Bytes → Except String Alert) (body : Bytes) : Except String Alert :=
  match readValue body with
  | Except.error err => Except.error err
  | Except.ok n => unmarshal (body.take n)

/-! ## Sample inputs -/

/-- The alert of the example in the source comment, with the given rule name,
state and evaluation records. -/
def sampleAlert (ruleName state : String) (evalMatches : List (List (String × GoVal))) : Alert :=
  { DashboardID := 1,
    EvalMatches := evalMatches,
    ImageURL := "https://grafana.com/assets/img/blog/mixed_styles.png",
    Message := "Notification Message",
    OrgID := 1,
    PanelID := 2,
    RuleID := 1,
    RuleName := ruleName,
    RuleURL := "http://localhost:3000/d/hZ7BuVbWz/test-dashboard",
    State := state,
    Tags := [("tag name", "tag value")],
    Title := "[Alerting] Panel Title alert" }

/-- The evaluation record of the example in the source comment:
the value 1, the metric "Count" and an empty tag map. -/
def sampleEval : List (String × GoVal) :=
  [ ("value", GoVal.float64 { neg := false, mant := 1, exp := 0 }),
    ("metric", GoVal.string "Count"),
    ("tags", GoVal.map []) ]

/-- A second evaluation record: the value 2.5 and the metric "Latency". -/
def sampleEval2 : List (String × GoVal) :=
  [ ("value", GoVal.float64 { neg := false, mant := 5, exp := -1 }),
    ("metric", GoVal.string "Latency") ]

/-- A rendering of mismatched operands that knows the nil operand
(`%!f(<nil>)`, `%!s(<nil>)`) and leaves a placeholder elsewhere. -/
def sampleFmt : Fmt :=
  { other := fun verb v =>
      match v with
      | GoVal.nil => String.mk ['%', '!', verb, '(', '<', 'n', 'i', 'l', '>', ')']
      | _ => String.mk ['%', '!', verb, '(', '?', ')'] }

/-- The zero `Alert`, what the body `{}` decodes to. -/
def zeroAlert : Alert :=
  { DashboardID := 0, EvalMatches := [], ImageURL := "", Message := "", OrgID := 0,
    PanelID := 0, RuleID := 0, RuleName := "", RuleURL := "", State := "", Tags := [],
    Title := "" }

/-- A stand-in for the decoding of one delimited value into an `Alert`: it
knows the empty object and `null`, which both leave the zero alert, and
rejects every other value. -/
def sampleUnmarshal (value : Bytes) : Except String Alert :=
  if value.filter (fun c => !isSpace c) = [123, 125] then Except.ok zeroAlert
  else if value.filter (fun c => !isSpace c) = [110, 117, 108, 108] then Except.ok zeroAlert
  else Except.error "json: cannot unmarshal value into Go value of type function.Alert"

/-- A small environment: the decoder is the stream decoder over
`sampleUnmarshal`, the serializer is a stand-in that emits the bytes of the
top-level text, every URL but the empty one is reachable and the webhook
answers with the given status and the body `ok`. -/
def sampleEnv (url : String) (status : Nat) : Env :=
  { webhookURL := url,
    decode := Decode sampleUnmarshal,
    fmt := sampleFmt,
    marshal := fun p => Except.ok (p.Text.data.map Char.toNat),
    requestError := fun _ _ => none,
    send := fun req =>
      if req.URL = "" then Except.error "unsupported protocol scheme"
      else Except.ok { StatusCode := status, Body := Except.ok [111, 107] },
    writeError := fun _ => none }

/-! ## Auxiliary facts -/

/-- A loop that overwrites its accumulator ends with the value computed from
the last element. -/
theorem foldl_overwrite {α β : Type} (f : α → β) (xs : List α) (h : xs ≠ []) (init : β) :
    xs.foldl (fun _ x => f x) init = f (xs.getLast h) := by
  induction xs generalizing init with
  | nil => exact absurd rfl h
  | cons x rest ih =>
    cases rest with
    | nil => rfl
    | cons y tail =>
      have hne : y :: tail ≠ [] := List.cons_ne_nil y tail
      rw [List.foldl_cons, ih hne, List.getLast_cons hne]

/-- The call `strings.HasPrefix(s, p)` holds exactly when `s` is `p` followed
by some rest. -/
theorem HasPrefix_iff (s p : String) : HasPrefix s p = true ↔ ∃ rest : String, s = p ++ rest := by
  unfold HasPrefix
  rw [List.isPrefixOf_iff_prefix]
  constructor
  · rintro ⟨t, ht⟩
    refine ⟨String.mk t, ?_⟩
    apply String.ext
    rw [String.data_append, ht]
  · rintro ⟨rest, hrest⟩
    refine ⟨rest.data, ?_⟩
    rw [hrest, String.data_append]

/-- The value `scaleMicro mant exp` for a negative exponent `-(k+1)` is within
one half of `mant * 10^6 / 2^(k+1)`. -/
theorem scaleMicro_nearest (mant k : Nat) :
    2 * (scaleMicro mant (Int.negSucc k) * 2 ^ (k + 1)) ≤ 2 * (mant * 1000000) + 2 ^ (k + 1) ∧
    2 * (mant * 1000000) ≤ 2 * (scaleMicro mant (Int.negSucc k) * 2 ^ (k + 1)) + 2 ^ (k + 1) := by
  have hdm := Nat.div_add_mod (mant * 1000000) (2 ^ (k + 1))
  have hlt : mant * 1000000 % 2 ^ (k + 1) < 2 ^ (k + 1) := Nat.mod_lt _ (Nat.pos_pow_of_pos _ (by decide))
  rw [Nat.mul_comm] at hdm
  have hs : (mant * 1000000 / 2 ^ (k + 1) + 1) * 2 ^ (k + 1)
      = mant * 1000000 / 2 ^ (k + 1) * 2 ^ (k + 1) + 2 ^ (k + 1) := Nat.succ_mul _ _
  unfold scaleMicro
  simp only
  split
  · omega
  · split
    · rw [hs]; omega
    · split
      · omega
      · rw [hs]; omega

/-- The detail text of an alert with at least one evaluation record is the
line of the last record. -/
theorem textDetail_last (L : Fmt) (a : Alert) (h : a.EvalMatches ≠ []) :
    textDetail L a = detailLine L (a.EvalMatches.getLast h) :=
  foldl_overwrite (detailLine L) a.EvalMatches h ""

/-- The handler never reads the status code of the webhook's response:
replacing it in every response leaves the handler's effects unchanged. -/
theorem handler_ignores_status (E : Env) (body : Bytes) (code : Nat) :
    NotifyGrafanaAlertToGChat
        { E with send := fun r => (E.send r).map (fun x => { x with StatusCode := code }) } body
      = NotifyGrafanaAlertToGChat E body := by
  unfold NotifyGrafanaAlertToGChat
  cases hd : E.decode body with
  | error e => rfl
  | ok a =>
    simp only [hd]
    cases hm : E.marshal (params E.fmt a) with
    | error e => rfl
    | ok b =>
      simp only [hm, NewRequest]
      cases hq : E.requestError MethodPost E.webhookURL with
      | some e => rfl
      | none =>
        simp only [hq]
        cases hx : E.send ⟨MethodPost, E.webhookURL, headerSet [] "Content-Type" "application/json", b⟩ with
        | error e => rfl
        | ok resp => rfl

/-- The stream decoder stops at the bracket that closes the first value: a body
that starts with `{}` decodes as `{}` does, whatever follows. -/
theorem Decode_empty_object (unmarshal : Bytes → Except String Alert) (rest : Bytes) :
    Decode unmarshal (123 :: 125 :: rest) = unmarshal [123, 125] :=
  rfl

/-! ## The outbound document -/

/-- C1: for every alert the document has exactly one card, that card has
exactly two sections, the head section has exactly three widgets whose single
keys are textParagraph, buttons, image in this order, and the detail section
has exactly two widgets whose single key is keyValue. -/
theorem C1_document_shape (L : Fmt) (a : Alert) :
    (params L a).Cards.length = 1 ∧
    (params L a).Cards.map (fun c => c.Sections.length) = [2] ∧
    (params L a).Cards.map (fun c => c.Sections.map (fun s => s.Widgets.length)) = [[3, 2]] ∧
    (params L a).Cards.map (fun c => c.Sections.map (fun s => s.Widgets.map keys)) =
      [[[["textParagraph"], ["buttons"], ["image"]], [["keyValue"], ["keyValue"]]]] :=
  ⟨rfl, rfl, rfl, rfl⟩

/-- C2: for every alert the buttons widget holds exactly one button, a
textButton with text "URL" whose onClick.openLink.url is the alert's RuleURL,
the image widget's imageUrl is the alert's ImageURL, the first keyValue widget
has topLabel "State", the alert's State as content and contentMultiline true,
and the second has topLabel "Message", the alert's Message as content and
contentMultiline true. -/
theorem C2_widget_fields (L : Fmt) (a : Alert) :
    ∃ textWidget : Widget,
      (params L a).Cards =
        [ { Sections := [
            { Widgets := [
                textWidget,
                [("buttons", GoVal.slice [
                  GoVal.map [("textButton", GoVal.map [
                    ("text", GoVal.string "URL"),
                    ("onClick", GoVal.map [
                      ("openLink", GoVal.map [("url", GoVal.string a.RuleURL)])])])]])],
                [("image", GoVal.map [("imageUrl", GoVal.string a.ImageURL)])] ] },
            { Widgets := [
                [("keyValue", GoVal.map [
                  ("topLabel", GoVal.string "State"),
                  ("content", GoVal.string a.State),
                  ("contentMultiline", GoVal.bool true)])],
                [("keyValue", GoVal.map [
                  ("topLabel", GoVal.string "Message"),
                  ("content", GoVal.string a.Message),
                  ("contentMultiline", GoVal.bool true)])] ] } ] } ] :=
  ⟨_, rfl⟩

/-- C3: when the alert's state is "ok", whatever its rule name, the colour is
the health colour colors[Health] = "#27d871", and it is the colour of the font
tag of the rendered text. -/
theorem C3_health_color (L : Fmt) (a : Alert) (h : a.State = "ok") :
    color a = colors AlertLevel.Health ∧
    colors AlertLevel.Health = "#27d871" ∧
    text L a = "<font color=\"" ++ "#27d871" ++ "\">" ++ a.Title ++ "</font>\n" ++ textDetail L a := by
  have hc : color a = colors AlertLevel.Health := by simp [color, h]
  refine ⟨hc, rfl, ?_⟩
  unfold text
  rw [hc]
  rfl

/-- C3 at a rule name that starts with "[DANGER]" and the state "ok". -/
theorem C3_health_color_witness :
    (sampleAlert "[DANGER] disk" "ok" [sampleEval]).State = "ok" ∧
    HasPrefix (sampleAlert "[DANGER] disk" "ok" [sampleEval]).RuleName "[DANGER]" = true ∧
    color (sampleAlert "[DANGER] disk" "ok" [sampleEval]) = "#27d871" :=
  ⟨rfl, by decide, (C3_health_color sampleFmt (sampleAlert "[DANGER] disk" "ok" [sampleEval]) rfl).1⟩

/-- C4: when the alert's state is not "ok", a rule name that starts with the
literal prefix "[DANGER]" gives the danger colour colors[Danger] = "#fc2f2f"
and a rule name that does not start with it gives the warning colour
colors[Warn] = "#ffcc14"; in both cases it is the colour of the font tag of
the rendered text. -/
theorem C4_danger_warn_color (L : Fmt) (a : Alert) (h : a.State ≠ "ok") :
    ((∃ rest : String, a.RuleName = "[DANGER]" ++ rest) →
      color a = colors AlertLevel.Danger ∧
      colors AlertLevel.Danger = "#fc2f2f" ∧
      text L a = "<font color=\"" ++ "#fc2f2f" ++ "\">" ++ a.Title ++ "</font>\n"
        ++ textDetail L a) ∧
    ((¬ ∃ rest : String, a.RuleName = "[DANGER]" ++ rest) →
      color a = colors AlertLevel.Warn ∧
      colors AlertLevel.Warn = "#ffcc14" ∧
      text L a = "<font color=\"" ++ "#ffcc14" ++ "\">" ++ a.Title ++ "</font>\n"
        ++ textDetail L a) := by
  constructor
  · intro hp
    have hb : HasPrefix a.RuleName "[DANGER]" = true := (HasPrefix_iff _ _).2 hp
    have hc : color a = colors AlertLevel.Danger := by simp [color, h, hb]
    refine ⟨hc, rfl, ?_⟩
    unfold text
    rw [hc]
    rfl
  · intro hp
    have hb : HasPrefix a.RuleName "[DANGER]" = false := by
      cases hv : HasPrefix a.RuleName "[DANGER]" with
      | false => rfl
      | true => exact absurd ((HasPrefix_iff _ _).1 hv) hp
    have hc : color a = colors AlertLevel.Warn := by simp [color, h, hb]
    refine ⟨hc, rfl, ?_⟩
    unfold text
    rw [hc]
    rfl

/-- C4 at the rule name "[DANGER] x", and at the lower-case "[danger] x",
which does not carry the prefix, both in state "alerting". -/
theorem C4_danger_warn_color_witness :
    color (sampleAlert "[DANGER] x" "alerting" [sampleEval]) = "#fc2f2f" ∧
    color (sampleAlert "[danger] x" "alerting" [sampleEval]) = "#ffcc14" :=
  ⟨((C4_danger_warn_color sampleFmt (sampleAlert "[DANGER] x" "alerting" [sampleEval])
      (by decide)).1 ⟨" x", rfl⟩).1,
   ((C4_danger_warn_color sampleFmt (sampleAlert "[danger] x" "alerting" [sampleEval])
      (by decide)).2 (fun hp => absurd ((HasPrefix_iff _ _).2 hp) (by decide))).1⟩

/-- C5 as stated fails: for the alert of the source comment (one evaluation
record with value 1 and metric "Count", warning colour) the stated text, which
stops after the metric, is not the text of the textParagraph widget: the
rendered text ends with one more newline. -/
theorem C5_text_counterexample :
    (sampleAlert "Panel Title alert" "alerting" [sampleEval]).EvalMatches.getLast? = some sampleEval ∧
    index sampleEval "value" = GoVal.float64 { neg := false, mant := 1, exp := 0 } ∧
    index sampleEval "metric" = GoVal.string "Count" ∧
    color (sampleAlert "Panel Title alert" "alerting" [sampleEval]) = "#ffcc14" ∧
    fmtFloatF { neg := false, mant := 1, exp := 0 } = "1.000000" ∧
    text sampleFmt (sampleAlert "Panel Title alert" "alerting" [sampleEval]) ≠
      "<font color=\"#ffcc14\">[Alerting] Panel Title alert</font>" ++ "\n"
        ++ "metric: 1.000000, value: Count" ∧
    text sampleFmt (sampleAlert "Panel Title alert" "alerting" [sampleEval]) =
      "<font color=\"#ffcc14\">[Alerting] Panel Title alert</font>" ++ "\n"
        ++ "metric: 1.000000, value: Count" ++ "\n" :=
  ⟨rfl, rfl, rfl, by decide, by decide, by decide, by decide⟩

/-- C5, amended: for an alert with colour c, title t and a non-empty
evalMatches whose last entry has the float64 value v and the string metric m,
the text of the textParagraph widget is the title, verbatim, in a font tag of
colour c, a newline, and the detail line "metric: <v under %f>, value: <m>"
ended by a newline; the number after "metric:" is the entry's value and the
string after "value:" is the entry's metric. -/
theorem C5_text_amended (L : Fmt) (a : Alert) (h : a.EvalMatches ≠ []) (v : Float64) (m : String)
    (hv : index (a.EvalMatches.getLast h) "value" = GoVal.float64 v)
    (hm : index (a.EvalMatches.getLast h) "metric" = GoVal.string m) :
    text L a = "<font color=\"" ++ color a ++ "\">" ++ a.Title ++ "</font>\n"
      ++ ("metric: " ++ fmtFloatF v ++ ", value: " ++ m ++ "\n") ∧
    (headWidgets L a).head? =
      some [("textParagraph", GoVal.map [("text", GoVal.string (text L a))])] := by
  refine ⟨?_, rfl⟩
  unfold text
  rw [textDetail_last L a h]
  unfold detailLine
  rw [hv, hm]
  rfl

/-- C5, amended, at an alert with two evaluation records, the last one with
value 2.5 and metric "Latency". -/
theorem C5_text_amended_witness :
    text sampleFmt (sampleAlert "[DANGER] x" "alerting" [sampleEval, sampleEval2]) =
      "<font color=\"#fc2f2f\">[Alerting] Panel Title alert</font>\nmetric: 2.500000, value: Latency\n" :=
  (C5_text_amended sampleFmt (sampleAlert "[DANGER] x" "alerting" [sampleEval, sampleEval2])
    (by simp [sampleAlert]) { neg := false, mant := 5, exp := -1 } "Latency" rfl rfl).1

/-- C6: for an alert with more than one evaluation record, the detail text and
the whole outbound document equal those of the same alert with evalMatches
replaced by the one-element sequence holding its last entry. -/
theorem C6_only_last_entry (L : Fmt) (a : Alert) (h : 1 < a.EvalMatches.length) :
    ∃ last : List (String × GoVal),
      a.EvalMatches.getLast? = some last ∧
      textDetail L a = textDetail L { a with EvalMatches := [last] } ∧
      params L a = params L { a with EvalMatches := [last] } := by
  have hne : a.EvalMatches ≠ [] := by
    intro hnil
    rw [hnil] at h
    exact absurd h (by decide)
  have htd : textDetail L a
      = textDetail L { a with EvalMatches := [a.EvalMatches.getLast hne] } := by
    rw [textDetail_last L a hne]
    rfl
  refine ⟨a.EvalMatches.getLast hne, List.getLast?_eq_getLast _ hne, htd, ?_⟩
  unfold params headWidgets text
  rw [htd]
  rfl

/-- C6 at an alert with two evaluation records. -/
theorem C6_only_last_entry_witness :
    ∃ last : List (String × GoVal),
      [sampleEval, sampleEval2].getLast? = some last ∧
      textDetail sampleFmt (sampleAlert "Panel Title alert" "alerting" [sampleEval, sampleEval2])
        = textDetail sampleFmt (sampleAlert "Panel Title alert" "alerting" [last]) ∧
      params sampleFmt (sampleAlert "Panel Title alert" "alerting" [sampleEval, sampleEval2])
        = params sampleFmt (sampleAlert "Panel Title alert" "alerting" [last]) :=
  C6_only_last_entry sampleFmt (sampleAlert "Panel Title alert" "alerting" [sampleEval, sampleEval2])
    (by decide)

/-- C7: for every alert, with or without the "[DANGER]" prefix and in any
state, the top-level text of the outbound document is "<users/all>". -/
theorem C7_mention_all_users (L : Fmt) (a : Alert) :
    (params L a).Text = "<users/all>" := by
  show mention a = "<users/all>"
  unfold mention
  split <;> rfl

/-! ## The handler -/

/-- C9 as stated fails: the body `{}x` is malformed JSON, yet the stream
decoder delimits the value `{}`, decodes it to the zero alert and reads no
further, so the handler forwards the document to the webhook and answers 200
with the document as body. -/
theorem C9_malformed_body_accepted :
    Valid [123, 125, 120] = false ∧
    readValue [123, 125, 120] = Except.ok 2 ∧
    (sampleEnv "https://chat.example/hook" 200).decode [123, 125, 120] = Except.ok zeroAlert ∧
    statusCode (NotifyGrafanaAlertToGChat (sampleEnv "https://chat.example/hook" 200)
      [123, 125, 120]) = 200 ∧
    responseBody (NotifyGrafanaAlertToGChat (sampleEnv "https://chat.example/hook" 200)
      [123, 125, 120]) = "<users/all>".data.map Char.toNat ∧
    forwarded (NotifyGrafanaAlertToGChat (sampleEnv "https://chat.example/hook" 200)
      [123, 125, 120])
      = [ { Method := "POST", URL := "https://chat.example/hook",
            Header := [("Content-Type", "application/json")],
            Body := "<users/all>".data.map Char.toNat } ] :=
  ⟨rfl, rfl, rfl, rfl, rfl, rfl⟩

/-- C9, amended: when the decoder rejects the request body, as it does an
empty body, a truncated object or a string where an integer field is expected,
the handler responds with status 500, writes no response body and hands no
request to the HTTP client. -/
theorem C9_decode_failure (E : Env) (body : Bytes) (err : String)
    (h : E.decode body = Except.error err) :
    statusCode (NotifyGrafanaAlertToGChat E body) = 500 ∧
    responseBody (NotifyGrafanaAlertToGChat E body) = [] ∧
    forwarded (NotifyGrafanaAlertToGChat E body) = [] := by
  unfold NotifyGrafanaAlertToGChat
  rw [h]
  exact ⟨rfl, rfl, rfl⟩

/-- C9, amended, at the empty body, which the stream decoder rejects with
`EOF`, and at the truncated object `{`, which it rejects with `unexpected EOF`. -/
theorem C9_decode_failure_witness :
    statusCode (NotifyGrafanaAlertToGChat (sampleEnv "https://chat.example/hook" 200) []) = 500 ∧
    responseBody (NotifyGrafanaAlertToGChat (sampleEnv "https://chat.example/hook" 200) []) = [] ∧
    forwarded (NotifyGrafanaAlertToGChat (sampleEnv "https://chat.example/hook" 200) [123]) = [] :=
  ⟨(C9_decode_failure (sampleEnv "https://chat.example/hook" 200) [] "EOF" rfl).1,
   (C9_decode_failure (sampleEnv "https://chat.example/hook" 200) [] "EOF" rfl).2.1,
   (C9_decode_failure (sampleEnv "https://chat.example/hook" 200) [123] "unexpected EOF"
      rfl).2.2⟩

/-- C10: when the body decodes to an alert and constructing the outbound
request or sending it fails, the handler responds with status 500 and writes
no response body. -/
theorem C10_forward_failure (E : Env) (body : Bytes) (a : Alert) (b : Bytes)
    (hd : E.decode body = Except.ok a)
    (hm : E.marshal (params E.fmt a) = Except.ok b)
    (hf : (∃ err, E.requestError MethodPost E.webhookURL = some err) ∨
      (∃ err, E.send { Method := MethodPost, URL := E.webhookURL,
                       Header := [("Content-Type", "application/json")], Body := b }
        = Except.error err)) :
    statusCode (NotifyGrafanaAlertToGChat E body) = 500 ∧
    responseBody (NotifyGrafanaAlertToGChat E body) = [] := by
  unfold NotifyGrafanaAlertToGChat
  simp only [hd, hm, NewRequest]
  cases hq : E.requestError MethodPost E.webhookURL with
  | some e => exact ⟨rfl, rfl⟩
  | none =>
    rcases hf with ⟨e, he⟩ | ⟨e, he⟩
    · rw [hq] at he
      exact absurd he (by simp)
    · have hh : headerSet [] "Content-Type" "application/json"
          = [("Content-Type", "application/json")] := rfl
      simp only [hh, he]
      exact ⟨rfl, rfl⟩

/-- C10 at an empty webhook URL, where sending fails. -/
theorem C10_forward_failure_witness :
    statusCode (NotifyGrafanaAlertToGChat (sampleEnv "" 200) [123, 125]) = 500 ∧
    responseBody (NotifyGrafanaAlertToGChat (sampleEnv "" 200) [123, 125]) = [] :=
  C10_forward_failure (sampleEnv "" 200) [123, 125] zeroAlert
    ("<users/all>".data.map Char.toNat) rfl rfl
    (Or.inr ⟨"unsupported protocol scheme", rfl⟩)

/-- C8 as stated fails in its remark that the status of the webhook's
response is logged: with a webhook answering 503 the handler logs the decoded
alert and the response body and nothing else, and it performs the very same
effects as with a webhook answering 200. -/
theorem C8_status_not_logged :
    (sampleEnv "https://chat.example/hook" 503).send
        { Method := "POST", URL := "https://chat.example/hook",
          Header := [("Content-Type", "application/json")],
          Body := "<users/all>".data.map Char.toNat }
      = Except.ok { StatusCode := 503, Body := Except.ok [111, 107] } ∧
    logged (NotifyGrafanaAlertToGChat (sampleEnv "https://chat.example/hook" 503) [123, 125])
      = [ ("[alert log] %#v", LogArg.alert zeroAlert),
          ("[gchat response] %s", LogArg.bytes [111, 107]) ] ∧
    NotifyGrafanaAlertToGChat (sampleEnv "https://chat.example/hook" 503) [123, 125]
      = NotifyGrafanaAlertToGChat (sampleEnv "https://chat.example/hook" 200) [123, 125] :=
  ⟨rfl, rfl, rfl⟩

/-- C8, amended: when the body decodes to an alert and the outbound POST
returns a response, of any status, the handler leaves the status at 200, sets
the response header Content-Type to application/json and writes as response
body exactly the bytes it sent as body of the POST to the webhook URL, the
serialization of the assembled document; the status of the webhook's response
is neither validated nor logged (only its body is logged): the handler's
effects do not depend on it. -/
theorem C8_echo_amended (E : Env) (body : Bytes) (a : Alert) (req : Request) (resp : Response)
    (hd : E.decode body = Except.ok a)
    (hs : forwarded (NotifyGrafanaAlertToGChat E body) = [req])
    (hr : E.send req = Except.ok resp) :
    statusCode (NotifyGrafanaAlertToGChat E body) = 200 ∧
    responseHeader (NotifyGrafanaAlertToGChat E body) [] = [("Content-Type", "application/json")] ∧
    responseBody (NotifyGrafanaAlertToGChat E body) = req.Body ∧
    E.marshal (params E.fmt a) = Except.ok req.Body ∧
    req.Method = "POST" ∧ req.URL = E.webhookURL ∧
    req.Header = [("Content-Type", "application/json")] ∧
    ∀ code : Nat,
      NotifyGrafanaAlertToGChat
          { E with send := fun r => (E.send r).map (fun x => { x with StatusCode := code }) } body
        = NotifyGrafanaAlertToGChat E body := by
  suffices key :
      statusCode (NotifyGrafanaAlertToGChat E body) = 200 ∧
      responseHeader (NotifyGrafanaAlertToGChat E body) []
        = [("Content-Type", "application/json")] ∧
      responseBody (NotifyGrafanaAlertToGChat E body) = req.Body ∧
      E.marshal (params E.fmt a) = Except.ok req.Body ∧
      req.Method = "POST" ∧ req.URL = E.webhookURL ∧
      req.Header = [("Content-Type", "application/json")] from
    ⟨key.1, key.2.1, key.2.2.1, key.2.2.2.1, key.2.2.2.2.1, key.2.2.2.2.2.1, key.2.2.2.2.2.2,
      fun code => handler_ignores_status E body code⟩
  · unfold NotifyGrafanaAlertToGChat at hs ⊢
    simp only [hd] at hs ⊢
    cases hm : E.marshal (params E.fmt a) with
    | error e => simp [hm, forwarded] at hs
    | ok b =>
      simp only [hm, NewRequest] at hs ⊢
      cases hq : E.requestError MethodPost E.webhookURL with
      | some e => simp [hq, forwarded] at hs
      | none =>
        simp only [hq] at hs ⊢
        have hh : headerSet [] "Content-Type" "application/json"
            = [("Content-Type", "application/json")] := rfl
        simp only [hh] at hs ⊢
        cases hx : E.send ⟨MethodPost, E.webhookURL, [("Content-Type", "application/json")], b⟩ with
        | error e =>
          simp only [hx, forwarded, List.cons.injEq, and_true] at hs
          rw [← hs, hx] at hr
          exact absurd hr (by simp)
        | ok resp2 =>
          simp only [hx] at hs ⊢
          have hreq : req
              = ⟨MethodPost, E.webhookURL, [("Content-Type", "application/json")], b⟩ := by
            cases hb : resp2.Body <;> cases hw : E.writeError b <;>
              simp [hb, hw, forwarded] at hs <;> exact hs.symm
          subst hreq
          cases hb : resp2.Body <;> cases hw : E.writeError b <;>
            simp [statusCode, responseHeader, responseBody, headerSet, StatusOK, MethodPost]

/-- C8, amended, at a webhook that answers 503: the caller still receives
status 200 and the bytes that were posted. -/
theorem C8_echo_amended_witness :
    statusCode (NotifyGrafanaAlertToGChat (sampleEnv "https://chat.example/hook" 503) [123, 125])
      = 200 ∧
    responseHeader (NotifyGrafanaAlertToGChat (sampleEnv "https://chat.example/hook" 503) [123, 125]) []
      = [("Content-Type", "application/json")] ∧
    responseBody (NotifyGrafanaAlertToGChat (sampleEnv "https://chat.example/hook" 503) [123, 125])
      = "<users/all>".data.map Char.toNat :=
  have h := C8_echo_amended (sampleEnv "https://chat.example/hook" 503) [123, 125] zeroAlert
    { Method := "POST", URL := "https://chat.example/hook",
      Header := [("Content-Type", "application/json")],
      Body := "<users/all>".data.map Char.toNat }
    { StatusCode := 503, Body := Except.ok [111, 107] } rfl rfl rfl
  ⟨h.1, h.2.1, h.2.2.1⟩

end function
